import Mathlib

/-!
# Verification of `filebrowser_safe/base.py`

Shallow embedding of the file-handle metadata layer of `filebrowser-safe`.
Each Python property access is modelled as an explicit state transformer on a
`FileObjectState` record: it returns the produced value (or a raised
`PyError`), the updated instance state, and the list of external calls made to
the storage backend / type classifier during the access.

Python-semantic points reflected faithfully in the embedding:

* `django.utils.functional.cached_property` is a non-data descriptor: on the
  first access it runs the wrapped function and stores whatever the function
  returned (including `None`) in the instance `__dict__` under the property
  name; every later access returns that stored value without running the
  function again.  This `__dict__` slot is modelled by the `cache_*` fields,
  separate from the `*_stored` attributes that the function bodies assign.
* `exists` is declared with `@cached_property`, so `self.exists` evaluates to a
  `bool`; the call expressions `self.exists()` inside `filesize` and `date`
  therefore raise `TypeError` (a `bool` is not callable).
* `is_folder` is `@cached_property def is_folder(self): return
  default_storage.isdir(self.path)` — its body never consults
  `_is_folder_stored`, even though `FileObject.__init__` assigns that
  attribute.
* side effects performed before an exception is raised (for instance the
  memoisation of `exists` inside a failing `filesize` access) persist in the
  returned state.
-/

/-- Python `datetime.datetime` values, identified by their POSIX timestamp
(the only observation the embedded code makes of them). -/
structure PyDatetime where
  ts : Int
  deriving DecidableEq, Repr

/-- `datetime.datetime.fromtimestamp`. -/
def fromtimestamp (t : Int) : PyDatetime := ⟨t⟩

/-- `time.mktime(d.timetuple())` for a `datetime.datetime` value `d`. -/
def mktimeTimetuple (d : PyDatetime) : Int := d.ts

/-- The exceptions the embedded code can raise or observe. -/
inductive PyError
  | typeError
  | unicodeDecodeError
  | fileSystemEncodingChanged
  deriving DecidableEq, Repr

/-- One outgoing call to an external collaborator (storage backend or the
`get_file_type` classifier). -/
inductive CallEvent
  | existsCall (p : String)
  | sizeCall (p : String)
  | modifiedTimeCall (p : String)
  | isdirCall (p : String)
  | listdirCall (p : String)
  | urlCall (p : String)
  | getFileTypeCall (f : String)
  deriving DecidableEq, Repr

/-- The external collaborators: `default_storage` operations plus the
`get_file_type` classifier from `filebrowser_safe.functions`.  `listdir` may
fail (in particular with `UnicodeDecodeError`). -/
structure Env where
  exists_fn : String → Bool
  size : String → Int
  modified_time : String → PyDatetime
  isdir : String → Bool
  listdir : String → Except PyError (List String × List String)
  url : String → String
  get_file_type : String → String

/-- `os.path.basename`: the component after the final slash. -/
def basename (p : String) : String :=
  match (p.splitOn "/").reverse with
  | [] => ""
  | x :: _ => x

/-- Instance state of a `FileObject` / `FileObjectAPI` handle.  The `*_stored`
fields are the `_*_stored` attributes; the `cache_*` fields are the instance
`__dict__` slots written by `cached_property` on first access. -/
structure FileObjectState where
  path : String
  filename : String
  filetype_stored : Option String
  filesize_stored : Option Int
  date_stored : Option Int
  exists_stored : Option Bool
  is_folder_stored : Option Bool
  url_stored : Option String
  cache_filetype : Option String
  cache_filesize : Option (Option Int)
  cache_date : Option (Option Int)
  cache_exists : Option Bool
  cache_is_folder : Option Bool
  deriving DecidableEq, Repr

namespace FileObjectAPI

/-- Access of the `exists` cached property (base.py lines 89-93):
`if self._exists_stored is None: self._exists_stored =
default_storage.exists(self.path); return self._exists_stored`. -/
def existsProp (env : Env) (s : FileObjectState) :
    Bool × FileObjectState × List CallEvent :=
  match s.cache_exists with
  | some b => (b, s, [])
  | none =>
      match s.exists_stored with
      | some b => (b, { s with cache_exists := some b }, [])
      | none =>
          let b := env.exists_fn s.path
          (b, { s with exists_stored := some b, cache_exists := some b },
            [CallEvent.existsCall s.path])

/-- Access of the `is_folder` cached property (base.py lines 113-115):
`return default_storage.isdir(self.path)` — the body does not read
`_is_folder_stored`. -/
def is_folder (env : Env) (s : FileObjectState) :
    Bool × FileObjectState × List CallEvent :=
  match s.cache_is_folder with
  | some b => (b, s, [])
  | none =>
      let b := env.isdir s.path
      (b, { s with cache_is_folder := some b }, [CallEvent.isdirCall s.path])

/-- Access of the `filetype` cached property (base.py lines 49-57). -/
def filetype (env : Env) (s : FileObjectState) :
    String × FileObjectState × List CallEvent :=
  match s.cache_filetype with
  | some v => (v, s, [])
  | none =>
      match s.filetype_stored with
      | some v => (v, { s with cache_filetype := some v }, [])
      | none =>
          let r := is_folder env s
          if r.1 then
            ("Folder",
              { r.2.1 with
                  filetype_stored := some "Folder"
                  cache_filetype := some "Folder" }, r.2.2)
          else
            let v := env.get_file_type s.filename
            (v, { r.2.1 with filetype_stored := some v, cache_filetype := some v },
              r.2.2 ++ [CallEvent.getFileTypeCall s.filename])

/-- Access of the `filesize` cached property (base.py lines 61-68).  When the
stored size is absent, the body evaluates `self.exists()`: `self.exists` is
the `exists` cached property, i.e. a `bool`, and calling it raises
`TypeError`.  The memoisation of `exists` performed before the failing call
persists in the returned state. -/
def filesize (env : Env) (s : FileObjectState) :
    Except PyError (Option Int) × FileObjectState × List CallEvent :=
  match s.cache_filesize with
  | some v => (Except.ok v, s, [])
  | none =>
      match s.filesize_stored with
      | some v => (Except.ok (some v), { s with cache_filesize := some (some v) }, [])
      | none =>
          let r := FileObjectAPI.existsProp env s
          (Except.error PyError.typeError, r.2.1, r.2.2)

/-- Access of the `date` cached property (base.py lines 72-79).  Identical
shape to `filesize`: the `self.exists()` call raises `TypeError`. -/
def date (env : Env) (s : FileObjectState) :
    Except PyError (Option Int) × FileObjectState × List CallEvent :=
  match s.cache_date with
  | some v => (Except.ok v, s, [])
  | none =>
      match s.date_stored with
      | some v => (Except.ok (some v), { s with cache_date := some (some v) }, [])
      | none =>
          let r := FileObjectAPI.existsProp env s
          (Except.error PyError.typeError, r.2.1, r.2.2)

/-- Python truthiness of the value produced by `date` (a `None` or a
numeric timestamp). -/
def pyTruthy : Option Int → Bool
  | none => false
  | some v => v != 0

/-- Access of the plain `datetime` property (base.py lines 81-85):
`if self.date: return datetime.datetime.fromtimestamp(self.date); return
None`.  Note that `self.date` is accessed twice in the truthy branch. -/
def datetime (env : Env) (s : FileObjectState) :
    Except PyError (Option PyDatetime) × FileObjectState × List CallEvent :=
  let r := date env s
  match r.1 with
  | Except.error e => (Except.error e, r.2.1, r.2.2)
  | Except.ok d =>
      if pyTruthy d then
        let r2 := date env r.2.1
        match r2.1 with
        | Except.error e => (Except.error e, r2.2.1, r.2.2 ++ r2.2.2)
        | Except.ok d2 =>
            match d2 with
            | some v =>
                (Except.ok (some (fromtimestamp v)), r2.2.1, r.2.2 ++ r2.2.2)
            | none => (Except.error PyError.typeError, r2.2.1, r.2.2 ++ r2.2.2)
      else
        (Except.ok none, r.2.1, r.2.2)

/-- Access of the plain `is_empty` property (base.py lines 117-127).  A
`UnicodeDecodeError` from `listdir` is converted into the domain error
`FileSystemEncodingChanged`; any other listing error propagates unchanged. -/
def is_empty (env : Env) (s : FileObjectState) :
    Except PyError Bool × FileObjectState × List CallEvent :=
  let r := is_folder env s
  if r.1 then
    match env.listdir s.path with
    | Except.error e =>
        if e = PyError.unicodeDecodeError then
          (Except.error PyError.fileSystemEncodingChanged, r.2.1,
            r.2.2 ++ [CallEvent.listdirCall s.path])
        else
          (Except.error e, r.2.1, r.2.2 ++ [CallEvent.listdirCall s.path])
    | Except.ok (dirs, files) =>
        if dirs = [] ∧ files = [] then
          (Except.ok true, r.2.1, r.2.2 ++ [CallEvent.listdirCall s.path])
        else
          (Except.ok false, r.2.1, r.2.2 ++ [CallEvent.listdirCall s.path])
  else
    (Except.ok false, r.2.1, r.2.2)

end FileObjectAPI

namespace FileObject

/-- `FileObject.__init__` (base.py lines 142-156) composed with
`FileObjectAPI.__init__`: pops the optional keyword arguments and seeds the
`_*_stored` attributes.  `if is_dir:` seeds both `_filetype_stored` and
`_is_folder_stored`; `elif is_dir is not None:` seeds `_is_folder_stored =
False` only.  A passed `last_modified` datetime is always truthy, so its
`mktime` timestamp is stored. -/
def mk (path : String) (is_dir : Option Bool) (size : Option Int)
    (exists_arg : Option Bool) (last_modified : Option PyDatetime)
    (url : Option String) : FileObjectState :=
  { path := path
    filename := basename path
    filetype_stored := match is_dir with
      | some true => some "Folder"
      | _ => none
    is_folder_stored := match is_dir with
      | some true => some true
      | some false => some false
      | none => none
    filesize_stored := size
    date_stored := match last_modified with
      | some d => some (mktimeTimetuple d)
      | none => none
    exists_stored := exists_arg
    url_stored := url
    cache_filetype := none
    cache_filesize := none
    cache_date := none
    cache_exists := none
    cache_is_folder := none }

/-- Access of the plain `url` property (base.py lines 164-168). -/
def url (env : Env) (s : FileObjectState) :
    String × FileObjectState × List CallEvent :=
  match s.url_stored with
  | some u => (u, s, [])
  | none =>
      let u := env.url s.path
      (u, { s with url_stored := some u }, [CallEvent.urlCall s.path])

end FileObject

/-- Warning categories emitted through `warnings.warn` (non-fatal). -/
inductive WarningKind
  | futureWarning
  deriving DecidableEq, Repr

/-- Instance state of a `FieldFileObject` bound handle: the `name` attribute
set by the framework `FieldFile.__init__`, plus the mixin state. -/
structure FieldFileObjectState where
  name : String
  api : FileObjectState
  deriving DecidableEq, Repr

namespace FieldFileObject

/-- The canonical `name` accessor, provided by the framework `FieldFile`
base class: returns the stored name. -/
def name (s : FieldFileObjectState) : String := s.name

/-- Access of the deprecated `path` property (base.py lines 189-195): emits a
`FutureWarning` through `warnings.warn` (non-fatal) and returns `self.name`. -/
def path (s : FieldFileObjectState) : String × List WarningKind :=
  (FieldFileObject.name s, [WarningKind.futureWarning])

end FieldFileObject

/-! ## Concrete environments and handles used by the closed theorems -/

/-- A backend on which no path exists and no path is a directory. -/
def envAbsent : Env :=
  { exists_fn := fun _ => false
    size := fun _ => 100
    modified_time := fun _ => ⟨1000⟩
    isdir := fun _ => false
    listdir := fun _ => Except.ok ([], [])
    url := fun _ => "/media/u"
    get_file_type := fun _ => "Image" }

/-- A backend on which every path is an empty directory. -/
def envEmptyDir : Env :=
  { envAbsent with
      exists_fn := fun _ => true
      isdir := fun _ => true }

/-- A backend on which every path is a directory with one child file. -/
def envOneChild : Env :=
  { envAbsent with
      exists_fn := fun _ => true
      isdir := fun _ => true
      listdir := fun _ => Except.ok ([], ["child.txt"]) }

/-- A backend on which every path is a directory whose listing fails with
`UnicodeDecodeError`. -/
def envBadEncoding : Env :=
  { envAbsent with
      isdir := fun _ => true
      listdir := fun _ => Except.error PyError.unicodeDecodeError }

/-- `FileObject("somefile.txt")` with no keyword arguments. -/
def hPlain : FileObjectState :=
  FileObject.mk "somefile.txt" none none none none none

/-- `FileObject("somedir", is_dir=True)`. -/
def hDirSeed : FileObjectState :=
  FileObject.mk "somedir" (some true) none none none none

/-- `FileObject("notes.txt", last_modified=d)` where `mktime(d.timetuple())`
is the epoch timestamp `0`. -/
def hEpochSeed : FileObjectState :=
  FileObject.mk "notes.txt" none none none (some ⟨0⟩) none

/-- `FileObject("notes.txt", last_modified=d)` where `mktime(d.timetuple())`
is the non-zero timestamp `5`. -/
def hLaterSeed : FileObjectState :=
  FileObject.mk "notes.txt" none none none (some ⟨5⟩) none

/-! ## General lemmas about the accessors -/

/-- A failing `filesize` access always fails with `TypeError`. -/
theorem filesize_error_is_typeError (env : Env) (s : FileObjectState)
    (e : PyError) (h : (FileObjectAPI.filesize env s).1 = Except.error e) :
    e = PyError.typeError := by
  unfold FileObjectAPI.filesize at h
  rcases hc : s.cache_filesize with _ | v <;> rw [hc] at h
  · rcases hs : s.filesize_stored with _ | v <;> rw [hs] at h
    · simp at h
      exact h.symm
    · simp at h
  · simp at h

/-- A failing `date` access always fails with `TypeError`. -/
theorem date_error_is_typeError (env : Env) (s : FileObjectState)
    (e : PyError) (h : (FileObjectAPI.date env s).1 = Except.error e) :
    e = PyError.typeError := by
  unfold FileObjectAPI.date at h
  rcases hc : s.cache_date with _ | v <;> rw [hc] at h
  · rcases hs : s.date_stored with _ | v <;> rw [hs] at h
    · simp at h
      exact h.symm
    · simp at h
  · simp at h

/-- A failing `datetime` access always fails with `TypeError`. -/
theorem datetime_error_is_typeError (env : Env) (s : FileObjectState)
    (e : PyError) (h : (FileObjectAPI.datetime env s).1 = Except.error e) :
    e = PyError.typeError := by
  rcases hc : s.cache_date with _ | w
  · rcases hs : s.date_stored with _ | w
    · simp [FileObjectAPI.datetime, FileObjectAPI.date, hc, hs] at h
      exact h.symm
    · by_cases hw : w = 0 <;>
        simp [FileObjectAPI.datetime, FileObjectAPI.date, hc, hs,
          FileObjectAPI.pyTruthy, hw] at h
  · rcases w with _ | t
    · simp [FileObjectAPI.datetime, FileObjectAPI.date, hc,
        FileObjectAPI.pyTruthy] at h
    · by_cases ht : t = 0 <;>
        simp [FileObjectAPI.datetime, FileObjectAPI.date, hc,
          FileObjectAPI.pyTruthy, ht] at h

/-! ## Claims -/

/-- Claim C1 (refuted by the code, code bug): the claim says that for a handle
whose size was not pre-seeded, when the backend reports the path as absent,
`filesize` returns an absent value without caching it so that a later access
re-queries the backend.  In the code, `exists` is declared with
`@cached_property`, so `self.exists` inside `filesize` evaluates to the bool
`False` and the call `self.exists()` raises `TypeError`; moreover
`@cached_property` on `filesize` itself would memoise a returned `None`
permanently.  This theorem evaluates the embedded `filesize` access at the
failing input: it raises `TypeError` (after memoising the `exists` result)
instead of returning an absent value. -/
theorem claim_C1_filesize_raises_instead_of_absent :
    FileObjectAPI.filesize envAbsent hPlain =
      (Except.error PyError.typeError,
        { hPlain with exists_stored := some false, cache_exists := some false },
        [CallEvent.existsCall "somefile.txt"]) := rfl

/-- Claim C2 (refuted by the code, code bug): the claim says that with size
and date not pre-seeded and the path absent, `filesize` and `date` each return
an absent value and never raise.  The embedded code raises `TypeError` from
both accesses (the `self.exists()` call applies a bool). -/
theorem claim_C2_absent_path_raises :
    (FileObjectAPI.filesize envAbsent hPlain).1 = Except.error PyError.typeError ∧
    (FileObjectAPI.date envAbsent hPlain).1 = Except.error PyError.typeError :=
  ⟨rfl, rfl⟩

/-- Claim C3 (refuted by the code, code bug): the claim says a handle
constructed with explicit `is_dir` gets `is_folder` answered from the
pre-seeded boolean with no backend `isdir` call.  `FileObject.__init__` does
assign `_is_folder_stored`, but the `is_folder` property body never reads it:
on the handle built with `is_dir=True` over a backend whose `isdir` is false,
`is_folder` performs the backend `isdir` call and returns `False`,
contradicting the pre-seed. -/
theorem claim_C3_is_folder_ignores_preseed :
    hDirSeed.is_folder_stored = some true ∧
    FileObjectAPI.is_folder envAbsent hDirSeed =
      (false, { hDirSeed with cache_is_folder := some false },
        [CallEvent.isdirCall "somedir"]) :=
  ⟨rfl, rfl⟩

/-- Claim C4 (confirmed): for every handle constructed with `is_dir=True`,
`filetype` returns the literal "Folder" and makes no external call at all —
in particular no `get_file_type` classification lookup — whatever classifier
and filename extension the environment provides. -/
theorem claim_C4_is_dir_true_filetype_folder (env : Env) (p : String)
    (sz : Option Int) (ex : Option Bool) (lm : Option PyDatetime)
    (u : Option String) :
    (FileObjectAPI.filetype env (FileObject.mk p (some true) sz ex lm u)).1 =
      "Folder" ∧
    (FileObjectAPI.filetype env (FileObject.mk p (some true) sz ex lm u)).2.2 =
      [] :=
  ⟨rfl, rfl⟩

/-- Claim C5 (confirmed): for every handle constructed with a pre-seeded size
value `v`, `filesize` returns exactly `v` and the external-call trace is
empty, over every environment. -/
theorem claim_C5_preseeded_size_no_backend (env : Env) (p : String)
    (is_dir : Option Bool) (v : Int) (ex : Option Bool)
    (lm : Option PyDatetime) (u : Option String) :
    FileObjectAPI.filesize env (FileObject.mk p is_dir (some v) ex lm u) =
      (Except.ok (some v),
        { FileObject.mk p is_dir (some v) ex lm u with
            cache_filesize := some (some v) }, []) :=
  rfl

/-- Claim C6 (confirmed): `is_empty` returns `False` whenever `is_folder`
resolves to false, regardless of the backend listing; and when `is_folder`
resolves to true and the listing succeeds, `is_empty` is true exactly when
both the child-directory list and the child-file list are empty. -/
theorem claim_C6_is_empty_characterisation (env : Env) (s : FileObjectState) :
    ((FileObjectAPI.is_folder env s).1 = false →
      (FileObjectAPI.is_empty env s).1 = Except.ok false) ∧
    (∀ dirs files : List String, (FileObjectAPI.is_folder env s).1 = true →
      env.listdir s.path = Except.ok (dirs, files) →
      (FileObjectAPI.is_empty env s).1 =
        Except.ok (decide (dirs = [] ∧ files = []))) := by
  constructor
  · intro hb
    simp [FileObjectAPI.is_empty, hb]
  · intro dirs files hb hl
    by_cases hd : dirs = [] ∧ files = [] <;>
      simp [FileObjectAPI.is_empty, hb, hl, hd]

/-- Witness for claim C6: an empty directory yields `True`, a directory with
one child file yields `False`, and a non-directory yields `False`. -/
theorem claim_C6_witness :
    (FileObjectAPI.is_empty envEmptyDir hPlain).1 = Except.ok true ∧
    (FileObjectAPI.is_empty envOneChild hPlain).1 = Except.ok false ∧
    (FileObjectAPI.is_empty envAbsent hPlain).1 = Except.ok false := by
  refine ⟨?_, ?_, ?_⟩
  · have h := (claim_C6_is_empty_characterisation envEmptyDir hPlain).2 [] [] rfl rfl
    simpa using h
  · have h :=
      (claim_C6_is_empty_characterisation envOneChild hPlain).2 [] ["child.txt"] rfl rfl
    simpa using h
  · exact (claim_C6_is_empty_characterisation envAbsent hPlain).1 rfl

/-- Claim C7 (confirmed): when the handle is a folder and the backend listing
fails with `UnicodeDecodeError`, `is_empty` raises the distinct domain error
`FileSystemEncodingChanged` — never the generic `UnicodeDecodeError` — and no
other operation of the handle can produce `FileSystemEncodingChanged`:
`filesize`, `date` and `datetime` only ever fail with `TypeError`, and
`filetype`, `existsProp`, `is_folder` and `url` are non-raising by their
types. -/
theorem claim_C7_encoding_error_only_from_is_empty (env : Env)
    (s : FileObjectState) :
    ((FileObjectAPI.is_folder env s).1 = true →
      env.listdir s.path = Except.error PyError.unicodeDecodeError →
      (FileObjectAPI.is_empty env s).1 =
        Except.error PyError.fileSystemEncodingChanged) ∧
    (FileObjectAPI.is_empty env s).1 ≠ Except.error PyError.unicodeDecodeError ∧
    (FileObjectAPI.filesize env s).1 ≠
      Except.error PyError.fileSystemEncodingChanged ∧
    (FileObjectAPI.date env s).1 ≠
      Except.error PyError.fileSystemEncodingChanged ∧
    (FileObjectAPI.datetime env s).1 ≠
      Except.error PyError.fileSystemEncodingChanged := by
  refine ⟨?_, ?_, ?_, ?_, ?_⟩
  · intro hb hl
    simp [FileObjectAPI.is_empty, hb, hl]
  · cases hb : (FileObjectAPI.is_folder env s).1
    · simp [FileObjectAPI.is_empty, hb]
    · rcases hl : env.listdir s.path with e | ⟨dirs, files⟩
      · by_cases he : e = PyError.unicodeDecodeError <;>
          simp [FileObjectAPI.is_empty, hb, hl, he]
      · by_cases hd : dirs = [] ∧ files = [] <;>
          simp [FileObjectAPI.is_empty, hb, hl, hd]
  · intro h
    exact absurd (filesize_error_is_typeError env s _ h) (by decide)
  · intro h
    exact absurd (date_error_is_typeError env s _ h) (by decide)
  · intro h
    exact absurd (datetime_error_is_typeError env s _ h) (by decide)

/-- Witness for claim C7: over a backend whose listing fails with
`UnicodeDecodeError`, `is_empty` of a folder raises
`FileSystemEncodingChanged`. -/
theorem claim_C7_witness :
    (FileObjectAPI.is_empty envBadEncoding hPlain).1 =
      Except.error PyError.fileSystemEncodingChanged :=
  (claim_C7_encoding_error_only_from_is_empty envBadEncoding hPlain).1 rfl rfl

/-- Claim C8 (confirmed): an `exists` access performs at most one backend
call, and a second access on the resulting state returns the same boolean
(whether `True` or `False`), leaves the state unchanged and performs no
backend call — so the cached value never changes for the lifetime of the
object. -/
theorem claim_C8_exists_cached_permanently (env : Env) (s : FileObjectState) :
    (FileObjectAPI.existsProp env s).2.2.length ≤ 1 ∧
    FileObjectAPI.existsProp env (FileObjectAPI.existsProp env s).2.1 =
      ((FileObjectAPI.existsProp env s).1,
        (FileObjectAPI.existsProp env s).2.1, []) := by
  rcases hc : s.cache_exists with _ | b
  · rcases hs : s.exists_stored with _ | b <;>
      simp [FileObjectAPI.existsProp, hc, hs]
  · simp [FileObjectAPI.existsProp, hc]

/-- Claim C9 (confirmed): every access of the deprecated `path` property of a
bound handle emits exactly one non-fatal `FutureWarning` and returns exactly
the value of the canonical `name` accessor; being a total function, it never
raises. -/
theorem claim_C9_deprecated_path_warns_and_delegates
    (s : FieldFileObjectState) :
    FieldFileObject.path s =
      (FieldFileObject.name s, [WarningKind.futureWarning]) := rfl

/-- Claim C10 (confirmed): `datetime` tests the truthiness of `date`, so when
`date` resolves to the epoch timestamp `0` it returns `None` rather than the
structured date-time of the epoch, while a non-zero resolved timestamp `t`
yields `datetime.datetime.fromtimestamp(t)`. -/
theorem claim_C10_datetime_truthiness (env : Env) (s : FileObjectState) :
    ((FileObjectAPI.date env s).1 = Except.ok (some 0) →
      (FileObjectAPI.datetime env s).1 = Except.ok none) ∧
    (∀ t : Int, t ≠ 0 → (FileObjectAPI.date env s).1 = Except.ok (some t) →
      (FileObjectAPI.datetime env s).1 =
        Except.ok (some (fromtimestamp t))) := by
  rcases hc : s.cache_date with _ | w
  · rcases hs : s.date_stored with _ | w
    · constructor
      · intro h
        simp [FileObjectAPI.date, hc, hs] at h
      · intro t ht h
        simp [FileObjectAPI.date, hc, hs] at h
    · constructor
      · intro h
        simp [FileObjectAPI.date, hc, hs] at h
        subst h
        simp [FileObjectAPI.datetime, FileObjectAPI.date, hc, hs,
          FileObjectAPI.pyTruthy]
      · intro t ht h
        simp [FileObjectAPI.date, hc, hs] at h
        subst h
        simp [FileObjectAPI.datetime, FileObjectAPI.date, hc, hs,
          FileObjectAPI.pyTruthy, ht]
  · constructor
    · intro h
      simp [FileObjectAPI.date, hc] at h
      subst h
      simp [FileObjectAPI.datetime, FileObjectAPI.date, hc,
        FileObjectAPI.pyTruthy]
    · intro t ht h
      simp [FileObjectAPI.date, hc] at h
      subst h
      simp [FileObjectAPI.datetime, FileObjectAPI.date, hc,
        FileObjectAPI.pyTruthy, ht]

/-- Witness for claim C10: a handle whose `last_modified` keyword argument
converts to timestamp `0` has `datetime = None`, while timestamp `5` yields
the structured date-time for `5`. -/
theorem claim_C10_witness :
    (FileObjectAPI.datetime envAbsent hEpochSeed).1 = Except.ok none ∧
    (FileObjectAPI.datetime envAbsent hLaterSeed).1 =
      Except.ok (some (fromtimestamp 5)) :=
  ⟨(claim_C10_datetime_truthiness envAbsent hEpochSeed).1 rfl,
    (claim_C10_datetime_truthiness envAbsent hLaterSeed).2 5 (by decide) rfl⟩
